import Mathlib

/-
  Verification of the FAS refill supervisor (fuel automation system).

  Shallow embedding of the JavaScript sources:
    - FuelStateMachine (meter stability filter, transition, UART frame
      handling, RFID processing, transaction finalization);
    - the state definition table and validateStateTransition (states.js);
    - the API route handlers for drf-submit and the operation endpoint;
    - UartService frame correlation (handleData) and error handling
      (handleError).

  Timestamps are modelled as Nat milliseconds; every function that reads
  Date.now() in the source takes an explicit `now` argument.  Meter values
  (JavaScript numbers) are modelled as Rat.  JavaScript objects whose field
  names matter (the transaction record) are modelled as association lists
  from field names to JsValue, where a missing field reads as
  JsValue.undef, exactly as property access on a missing key yields
  undefined in JavaScript.
-/

set_option linter.unusedVariables false

namespace FAS

/-- JavaScript runtime values stored in dynamic objects.  `undef` is the
result of reading an absent property. -/
inductive JsValue
  | undef
  | jsNull
  | str (s : String)
  | num (q : Rat)
deriving DecidableEq

/-- A JavaScript object with dynamic fields (used for the transaction
record, whose field names are load-bearing). -/
abbrev Tx := List (String × JsValue)

/-- Property read: the value of the first binding of `key`, or `undef`
when the object has no such field. -/
def getField (tx : Tx) (key : String) : JsValue :=
  match tx.find? (fun p => p.1 == key) with
  | some p => p.2
  | none => JsValue.undef

/-- Property write: `obj[key] = v`. -/
def setField (tx : Tx) (key : String) (v : JsValue) : Tx :=
  (key, v) :: tx.filter (fun p => p.1 != key)

/-- Stand-in for JavaScript Number.prototype.toString on meter values; the
exact decimal rendering is irrelevant to every property proved here. -/
def jsNumToString (q : Rat) : String :=
  toString q

/-- The thirteen supervisor states of src/config/constants.js (STATES). -/
inductive StateName
  | REFILL_OP_IDLE
  | REFILL_OP_ERROR
  | REFILL_OP_START
  | REFILL_GET_FIRST_RFID
  | REFILL_WAIT_FOR_DRF_SUBMIT
  | REFILL_READ_FIRST_METER
  | REFILL_WAIT_FIRST_RFID_MATCH
  | REFILL_PROGRESS
  | REFILL_INTERRUPT
  | REFILL_LAST_METER_READ
  | REFILL_WAIT_METER_STABILITY
  | REFILL_WAIT_APP_INFORM
  | REFILL_FORCE_STOP
deriving DecidableEq

/-- The key under which a state appears in STATE_DEFINITIONS. -/
def stateKey : StateName → String
  | .REFILL_OP_IDLE => "REFILL_OP_IDLE"
  | .REFILL_OP_ERROR => "REFILL_OP_ERROR"
  | .REFILL_OP_START => "REFILL_OP_START"
  | .REFILL_GET_FIRST_RFID => "REFILL_GET_FIRST_RFID"
  | .REFILL_WAIT_FOR_DRF_SUBMIT => "REFILL_WAIT_FOR_DRF_SUBMIT"
  | .REFILL_READ_FIRST_METER => "REFILL_READ_FIRST_METER"
  | .REFILL_WAIT_FIRST_RFID_MATCH => "REFILL_WAIT_FIRST_RFID_MATCH"
  | .REFILL_PROGRESS => "REFILL_PROGRESS"
  | .REFILL_INTERRUPT => "REFILL_INTERRUPT"
  | .REFILL_LAST_METER_READ => "REFILL_LAST_METER_READ"
  | .REFILL_WAIT_METER_STABILITY => "REFILL_WAIT_METER_STABILITY"
  | .REFILL_WAIT_APP_INFORM => "REFILL_WAIT_APP_INFORM"
  | .REFILL_FORCE_STOP => "REFILL_FORCE_STOP"

/-- A vehicle record from the fleet directory (fields as used by the
supervisor: TagNumber, FleetNumber, VehicleTankCapacity,
CurrentMachineHours). -/
structure Vehicle where
  TagNumber : String
  FleetNumber : String
  VehicleTankCapacity : Rat
  CurrentMachineHours : Rat
deriving DecidableEq

/-- Parsed rfid_get reply (UartService.parseRfidResponse result). -/
structure RfidInfo where
  nozzleId : String
  rfidTag : String
  batteryState : Nat
deriving DecidableEq

/-- The meterReading object of FuelStateMachine: current / lastStable /
lastSaved values, window of recent readings, and the timestamp of the
first reading recorded while the window was empty. -/
structure MeterReading where
  current : Rat
  lastStable : Rat
  lastSaved : Rat
  stabilityTimestamp : Option Nat
  readings : List Rat
  stabilityThreshold : Nat
  stabilityTimeoutMs : Nat
deriving DecidableEq

/-- The meterReading value installed by the constructor, resetStateMachine
and initializeRefill. -/
def initialMeterReading : MeterReading :=
  { current := 0, lastStable := 0, lastSaved := 0, stabilityTimestamp := none,
    readings := [], stabilityThreshold := 2, stabilityTimeoutMs := 5000 }

/-- FuelStateMachine.isMeterReadingStable.  The source takes
readings.slice(-stabilityThreshold), checks that every element equals the
first of that slice, and then that Date.now() minus stabilityTimestamp is
at least stabilityTimeoutMs.  A null stabilityTimestamp coerces to 0 in
the JavaScript subtraction, hence the getD 0; Nat truncated subtraction
agrees with the JavaScript comparison because the timeout is positive. -/
def isMeterReadingStable (m : MeterReading) (now : Nat) : Bool :=
  if m.readings.length < m.stabilityThreshold then false
  else
    let lastReadings := m.readings.drop (m.readings.length - m.stabilityThreshold)
    let allEqual := lastReadings.all (fun r => r == lastReadings.headD 0)
    if allEqual then decide (m.stabilityTimeoutMs ≤ now - m.stabilityTimestamp.getD 0)
    else false

/-- FuelStateMachine.addMeterReading: stamp the first reading of an empty
window, push the reading, set current, shift the window above twice the
threshold, then test stability; a stable reading advances lastStable. -/
def addMeterReading (m : MeterReading) (reading : Rat) (now : Nat) : MeterReading × Bool :=
  let m1 := if m.readings.isEmpty then { m with stabilityTimestamp := some now } else m
  let m2 := { m1 with readings := m1.readings ++ [reading], current := reading }
  let m3 := if m2.stabilityThreshold * 2 < m2.readings.length
            then { m2 with readings := m2.readings.tail } else m2
  let isStable := isMeterReadingStable m3 now
  (if isStable then { m3 with lastStable := reading } else m3, isStable)

/-- Feed a timed sequence of readings through addMeterReading; the Bool is
the stability verdict of the last reading processed. -/
def processReadings (m : MeterReading) (l : List (Rat × Nat)) : MeterReading × Bool :=
  l.foldl (fun acc p => addMeterReading acc.1 p.1 p.2) (m, false)

/-- The data payload of a transition, with one optional field per property
that the canTransition validators of states.js read, plus the payload
fields passed by the supervisor call sites.  Absent fields model absent
object properties (undefined). -/
structure TransitionData where
  lastHeartbeat : Option Nat := none
  errorTimestamp : Option Nat := none
  rfidTag : Option String := none
  vehicle : Option Vehicle := none
  kilometers : Option Int := none
  meterActive : Option Bool := none
  rfidMatch : Option Bool := none
  dbTransaction : Option Bool := none
  stopRefill : Option Bool := none
  refillLiters : Option Rat := none
  tankCapacity : Option Rat := none
  lastAppComm : Option Nat := none
  rfidRecovered : Option Bool := none
  meterStable : Option Bool := none
  stabilityStartTime : Option Nat := none
  appInformed : Option Bool := none
  informStartTime : Option Nat := none
  requestTime : Option Nat := none
  finalReading : Option Rat := none
  transactionCompleted : Option Bool := none
  lastReading : Option Rat := none
  rfidInfo : Option RfidInfo := none
deriving DecidableEq

/-- JavaScript truthiness of an optional number (0 and undefined are
falsy). -/
def truthyNat (o : Option Nat) : Bool :=
  match o with
  | some n => n != 0
  | none => false

/-- JavaScript truthiness of an optional string (the empty string and
undefined are falsy). -/
def truthyStr (o : Option String) : Bool :=
  match o with
  | some s => s != ""
  | none => false

/-- JavaScript truthiness of an optional boolean. -/
def truthyBool (o : Option Bool) : Bool :=
  match o with
  | some b => b
  | none => false

/-- The allowedTransitions lists of STATE_DEFINITIONS in
src/state-machine/states.js. -/
def allowedTransitions : StateName → List StateName
  | .REFILL_OP_IDLE => [.REFILL_OP_ERROR, .REFILL_OP_START]
  | .REFILL_OP_ERROR => [.REFILL_OP_IDLE]
  | .REFILL_OP_START => [.REFILL_GET_FIRST_RFID, .REFILL_OP_ERROR]
  | .REFILL_GET_FIRST_RFID => [.REFILL_WAIT_FOR_DRF_SUBMIT, .REFILL_OP_IDLE, .REFILL_OP_ERROR]
  | .REFILL_WAIT_FOR_DRF_SUBMIT => [.REFILL_READ_FIRST_METER, .REFILL_OP_IDLE, .REFILL_OP_ERROR]
  | .REFILL_READ_FIRST_METER => [.REFILL_WAIT_FIRST_RFID_MATCH, .REFILL_OP_IDLE, .REFILL_OP_ERROR]
  | .REFILL_WAIT_FIRST_RFID_MATCH =>
      [.REFILL_PROGRESS, .REFILL_WAIT_APP_INFORM, .REFILL_OP_IDLE, .REFILL_OP_ERROR]
  | .REFILL_PROGRESS => [.REFILL_INTERRUPT, .REFILL_LAST_METER_READ, .REFILL_OP_ERROR]
  | .REFILL_INTERRUPT => [.REFILL_PROGRESS, .REFILL_LAST_METER_READ, .REFILL_OP_ERROR]
  | .REFILL_LAST_METER_READ =>
      [.REFILL_WAIT_METER_STABILITY, .REFILL_WAIT_APP_INFORM, .REFILL_OP_ERROR]
  | .REFILL_WAIT_METER_STABILITY => [.REFILL_LAST_METER_READ, .REFILL_OP_ERROR]
  | .REFILL_WAIT_APP_INFORM => [.REFILL_OP_IDLE, .REFILL_OP_ERROR]
  | .REFILL_FORCE_STOP => [.REFILL_LAST_METER_READ, .REFILL_WAIT_APP_INFORM, .REFILL_OP_ERROR]

/-- The canTransition validators of STATE_DEFINITIONS, with JavaScript
semantics made explicit: absent fields behave as undefined (falsy, and a
NaN outcome of arithmetic on undefined makes every comparison false);
truncated Nat subtraction agrees with every comparison used because the
compared bounds are positive. -/
def canTransition (current target : StateName) (d : TransitionData) (now : Nat) : Bool :=
  match current with
  | .REFILL_OP_IDLE =>
      if target = .REFILL_OP_ERROR then true
      else if target = .REFILL_OP_START then
        truthyNat d.lastHeartbeat && decide (now - d.lastHeartbeat.getD 0 < 10000)
      else false
  | .REFILL_OP_ERROR =>
      decide (target = .REFILL_OP_IDLE) &&
        (match d.errorTimestamp with
         | some e => decide (30000 < now - e)
         | none => false)
  | .REFILL_OP_START => true
  | .REFILL_GET_FIRST_RFID =>
      if target = .REFILL_WAIT_FOR_DRF_SUBMIT then
        truthyStr d.rfidTag && d.vehicle.isSome
      else true
  | .REFILL_WAIT_FOR_DRF_SUBMIT =>
      if target = .REFILL_READ_FIRST_METER then
        match d.kilometers with
        | some k => decide (k ≠ 0) && decide (k ≤ 1000)
        | none => false
      else true
  | .REFILL_READ_FIRST_METER =>
      if target = .REFILL_WAIT_FIRST_RFID_MATCH then d.meterActive == some true
      else true
  | .REFILL_WAIT_FIRST_RFID_MATCH =>
      if target = .REFILL_PROGRESS then
        (d.rfidMatch == some true) && truthyBool d.dbTransaction
      else true
  | .REFILL_PROGRESS =>
      if target = .REFILL_LAST_METER_READ then
        truthyBool d.stopRefill ||
        (match d.refillLiters, d.tankCapacity with
         | some l, some c => decide (c ≤ l)
         | _, _ => false) ||
        (match d.lastAppComm with
         | some a => decide (30000 < now - a)
         | none => false)
      else true
  | .REFILL_INTERRUPT =>
      if target = .REFILL_PROGRESS then d.rfidRecovered == some true
      else true
  | .REFILL_LAST_METER_READ =>
      if target = .REFILL_WAIT_APP_INFORM then d.meterStable == some true
      else true
  | .REFILL_WAIT_METER_STABILITY =>
      match d.stabilityStartTime with
      | some st => decide (5000 ≤ now - st)
      | none => false
  | .REFILL_WAIT_APP_INFORM =>
      decide (target = .REFILL_OP_IDLE) &&
        (truthyBool d.appInformed ||
         (match d.informStartTime with
          | some i => decide (2000 ≤ now - i)
          | none => false))
  | .REFILL_FORCE_STOP =>
      if target = .REFILL_WAIT_APP_INFORM then d.refillLiters == some (0 : Rat)
      else true

/-- Result record of validateStateTransition. -/
structure ValidationResult where
  valid : Bool
  reason : Option String
deriving DecidableEq

/-- states.js validateStateTransition: the membership check against
allowedTransitions, then the state-specific canTransition validator. -/
def validateStateTransition (current target : StateName) (d : TransitionData) (now : Nat) :
    ValidationResult :=
  if ¬ (allowedTransitions current).contains target then
    { valid := false,
      reason := some ("Transition from " ++ stateKey current ++ " to " ++ stateKey target
                      ++ " not allowed") }
  else if ¬ canTransition current target d now then
    { valid := false,
      reason := some ("Validation failed for transition from " ++ stateKey current ++ " to "
                      ++ stateKey target) }
  else { valid := true, reason := none }

/-- One entry of FuelStateMachine.stateHistory (the transitionDetails
record); `fromState` and `toState` stand for the JavaScript field names
from and to. -/
structure TransitionRecord where
  fromState : StateName
  toState : StateName
  reason : String
  data : TransitionData
  timestamp : Nat
deriving DecidableEq

/-- Observable side effects of the embedded functions: emitted events,
UART writes, database calls, logging and sounds, and the port-level
actions of UartService. -/
inductive Action
  | emitStateChange (record : TransitionRecord)
  | emitMeterUpdate (value : Rat) (isStable : Bool)
  | emitRfidMatch (nozzleId : String)
  | emitRfidAlarm (nozzleId : String)
  | emitRfidRead (tag : String)
  | uartSend (cmd : String)
  | dbUpdateTransactionLiters (id : JsValue) (liters : JsValue)
  | dbAddLitersDispensed (liters : Rat)
  | dbClearIncompleteTransaction
  | dbDeleteTransaction (id : JsValue)
  | logEvent (msg : String)
  | playSound (sound : String)
  | emitData (payload : String)
  | emitError (err : String)
  | resolveRequest (commandId : Nat) (payload : String)
  | rejectRequest (commandId : Nat) (err : String)
  | clearTimer (commandId : Nat)
deriving DecidableEq

/-- The FuelStateMachine fields touched by the embedded methods. -/
structure Fsm where
  currentState : StateName
  previousState : Option StateName
  stateData : TransitionData
  stateTimestamp : Nat
  stateHistory : List TransitionRecord
  meterReading : MeterReading
  currentTransaction : Option Tx
  vehicle : Option Vehicle
  fleetData : List Vehicle
  nozzleId : String
  lastHeartbeatTime : Nat
  lastNozzleHeartbeatTime : Nat
  lastAppCommTime : Nat
  lastRfidMatchTime : Option Nat
  rfidInContact : Bool
  rfidAlarmReceived : Bool
  appInformed : Bool
  retryCount : Int
  requestStartTime : Option Nat
  lastUartResponse : Option String
deriving DecidableEq

/-- The reason actually recorded by FuelStateMachine.transition: a falsy
reason argument (absent, or the empty string) is replaced by the default
string. -/
def reasonOrDefault (reason : Option String) : String :=
  match reason with
  | none => "No reason provided"
  | some r => if r == "" then "No reason provided" else r

/-- FuelStateMachine.transition: substitutes the default reason for a
falsy one, moves currentState to previousState, installs the new state,
data and timestamp, appends exactly one record to stateHistory, and emits
exactly one stateChange event.  No validation of any kind is consulted. -/
def transition (fsm : Fsm) (newState : StateName) (d : TransitionData)
    (reason : Option String) (now : Nat) : Fsm × List Action :=
  let reasonStr := reasonOrDefault reason
  let record : TransitionRecord :=
    { fromState := fsm.currentState, toState := newState, reason := reasonStr,
      data := d, timestamp := now }
  ({ fsm with
      previousState := some fsm.currentState,
      currentState := newState,
      stateData := d,
      stateTimestamp := now,
      stateHistory := fsm.stateHistory ++ [record] },
   [Action.emitStateChange record])

/-- JavaScript String.prototype.startsWith. -/
def strStartsWith (s pat : String) : Bool :=
  pat.toList.isPrefixOf s.toList

/-- JavaScript String.prototype.includes: some suffix of s starts with
pat. -/
def strIncludes (s pat : String) : Bool :=
  s.toList.tails.any (fun t => pat.toList.isPrefixOf t)

/-- Consume a literal, or fail. -/
def matchLit (lit l : List Char) : Option (List Char) :=
  if lit.isPrefixOf l then some (l.drop lit.length) else none

/-- Consume one or more characters satisfying p (the greedy one-or-more
of a regex character class), or fail. -/
def span1 (p : Char → Bool) (l : List Char) : Option (List Char × List Char) :=
  let t := l.takeWhile p
  if t.isEmpty then none else some (t, l.drop t.length)

/-- Leftmost match of a position parser, mirroring an unanchored regex
search (String.prototype.match). -/
def firstMatch {α : Type} (f : List Char → Option α) (s : String) : Option α :=
  (s.toList.tails.filterMap f).head?

/-- The character class of the regex [A-Fa-f0-9]. -/
def isHexChar (c : Char) : Bool :=
  c.isDigit || (decide ('A' ≤ c) && decide (c ≤ 'F')) || (decide ('a' ≤ c) && decide (c ≤ 'f'))

/-- Decimal digits to a natural number (parseInt on a digit string). -/
def digitsToNat (l : List Char) : Nat :=
  l.foldl (fun a c => a * 10 + (c.toNat - Char.toNat (Char.ofNat 48))) 0

/-- parseFloat on an unsigned decimal with optional fraction. -/
def decimalToRat (ip fp : List Char) : Rat :=
  (digitsToNat ip : Rat) + (digitsToNat fp : Rat) / ((10 : Rat) ^ fp.length)

/-- Position parser for the regex nhb\((\d+),(\d+)\). -/
def parseNhbAt (l : List Char) : Option (String × String) := do
  let l ← matchLit "nhb(".toList l
  let (d1, l) ← span1 Char.isDigit l
  let l ← matchLit [Char.ofNat 44] l
  let (d2, l) ← span1 Char.isDigit l
  let _ ← matchLit [Char.ofNat 41] l
  pure (String.mk d1, String.mk d2)

/-- Position parser for the regex rfid_match\((\d+),(\d+)\). -/
def parseRfidMatchAt (l : List Char) : Option (String × String) := do
  let l ← matchLit "rfid_match(".toList l
  let (d1, l) ← span1 Char.isDigit l
  let l ← matchLit [Char.ofNat 44] l
  let (d2, l) ← span1 Char.isDigit l
  let _ ← matchLit [Char.ofNat 41] l
  pure (String.mk d1, String.mk d2)

/-- Position parser for the regex rfid_alarm\((\d+)\). -/
def parseRfidAlarmAt (l : List Char) : Option String := do
  let l ← matchLit "rfid_alarm(".toList l
  let (d1, l) ← span1 Char.isDigit l
  let _ ← matchLit [Char.ofNat 41] l
  pure (String.mk d1)

/-- Position parser for the regex rfid_get\((\d+),([A-Fa-f0-9]+),(\d+)\).
Note that a no-tag reply, whose second argument is the single dash, does
not match this pattern. -/
def parseRfidGetAt (l : List Char) : Option (String × String × Nat) := do
  let l ← matchLit "rfid_get(".toList l
  let (d1, l) ← span1 Char.isDigit l
  let l ← matchLit [Char.ofNat 44] l
  let (tag, l) ← span1 isHexChar l
  let l ← matchLit [Char.ofNat 44] l
  let (d3, l) ← span1 Char.isDigit l
  let _ ← matchLit [Char.ofNat 41] l
  pure (String.mk d1, String.mk tag, digitsToNat d3)

/-- Position parser for the regex meter_read\((\d+(?:\.\d+)?)\). -/
def parseMeterAt (l : List Char) : Option Rat := do
  let l ← matchLit "meter_read(".toList l
  let (ip, l) ← span1 Char.isDigit l
  match matchLit [Char.ofNat 46] l with
  | some l2 => do
      let (fp, l3) ← span1 Char.isDigit l2
      let _ ← matchLit [Char.ofNat 41] l3
      pure (decimalToRat ip fp)
  | none => do
      let _ ← matchLit [Char.ofNat 41] l
      pure (decimalToRat ip [])

/-- UartService.parseRfidResponse. -/
def parseRfidResponse (response : String) : Option RfidInfo :=
  (firstMatch parseRfidGetAt response).map
    (fun p => { nozzleId := p.1, rfidTag := p.2.1, batteryState := p.2.2 })

/-- UartService.parseMeterResponse. -/
def parseMeterResponse (response : String) : Option Rat :=
  firstMatch parseMeterAt response

/-- The nhb search of handleUartResponse. -/
def matchNhb (s : String) : Option (String × String) :=
  firstMatch parseNhbAt s

/-- The rfid_match search of handleUartResponse. -/
def matchRfidMatch (s : String) : Option (String × String) :=
  firstMatch parseRfidMatchAt s

/-- The rfid_alarm search of handleUartResponse. -/
def matchRfidAlarm (s : String) : Option String :=
  firstMatch parseRfidAlarmAt s

/-- UartService.getCommandType: classification of a line by verb
family. -/
def getCommandType (data : String) : String :=
  if strStartsWith data "heartbeat" then "heartbeat"
  else if strStartsWith data "hls_read" then "hls_read"
  else if strStartsWith data "meter_read" then "meter_read"
  else if strStartsWith data "rfid_get" then "rfid_get"
  else "unknown"

/-- One entry of the UartService pendingCommands map; the list order is
the Map insertion order (oldest first). -/
structure PendingCommand where
  commandId : Nat
  originalCommand : String
deriving DecidableEq

/-- UartService.handleData: emit the data event first, then resolve the
oldest pending command of the same verb family (clearing its timer and
deleting its entry); with no family match the frame stays unsolicited. -/
def handleData (pending : List PendingCommand) (data : String) :
    List Action × List PendingCommand :=
  let responseType := getCommandType data
  match pending.find? (fun c => getCommandType c.originalCommand == responseType) with
  | some c =>
      ([Action.emitData data, Action.clearTimer c.commandId,
        Action.resolveRequest c.commandId data],
       pending.eraseP (fun c => getCommandType c.originalCommand == responseType))
  | none => ([Action.emitData data], pending)

/-- UartService.handleError: emit the error event, then clear the timer
of, reject, and delete every pending command. -/
def handleError (pending : List PendingCommand) (err : String) :
    List Action × List PendingCommand :=
  (Action.emitError err ::
     (pending.map (fun c => [Action.clearTimer c.commandId,
                             Action.rejectRequest c.commandId err])).flatten,
   [])

/-- FuelStateMachine.processRfidResponse: a dash tag is ignored; a tag
found in fleetData binds the vehicle, merges tag and vehicle fields into
the transaction object, and transitions to REFILL_WAIT_FOR_DRF_SUBMIT; an
unknown tag transitions to REFILL_OP_IDLE.  Handed a parsed rfid_get
reply by handleUartResponse while in REFILL_GET_FIRST_RFID. -/
def processRfidResponse (fsm : Fsm) (info : RfidInfo) (now : Nat) : Fsm × List Action :=
  if info.rfidTag == "-" then (fsm, [])
  else
    match fsm.fleetData.find? (fun v => v.TagNumber == info.rfidTag) with
    | some vehicle =>
        let tx0 := fsm.currentTransaction.getD []
        let tx := setField (setField (setField tx0 "tagNumber" (JsValue.str info.rfidTag))
                    "fleetNumber" (JsValue.str vehicle.FleetNumber))
                    "tankCapacity" (JsValue.num vehicle.VehicleTankCapacity)
        let fsm := { fsm with vehicle := some vehicle, currentTransaction := some tx }
        transition fsm .REFILL_WAIT_FOR_DRF_SUBMIT
          { vehicle := some vehicle, rfidInfo := some info }
          (some "Valid RFID tag detected and validated against fleet database") now
    | none =>
        transition fsm .REFILL_OP_IDLE { rfidInfo := some info }
          (some "RFID tag validation failed - tag not found in fleet database") now

/-- FuelStateMachine.handleUartResponse: store the raw line, then branch
on substring membership in source order (meter_read, heartbeat, nhb,
rfid_match, rfid_alarm, rfid_get).  The nozzle last-seen timestamp is
refreshed inside the nozzle-id check for nhb, rfid_match and rfid_alarm,
but unconditionally in the rfid_get branch.  The meter branch feeds the
stability filter, mirrors current into the transaction field
dispensedLiter, and persists via updateTransactionLiters (which reads the
differently cased field DispensedLiter) once a liter has accumulated. -/
def handleUartResponse (fsm : Fsm) (data : String) (now : Nat) : Fsm × List Action :=
  let fsm := { fsm with lastUartResponse := some data }
  if strIncludes data "meter_read" then
    match parseMeterResponse data with
    | some meterValue =>
        let mr := addMeterReading fsm.meterReading meterValue now
        let m := mr.1
        let isStable := mr.2
        let fsm := { fsm with meterReading := m }
        match fsm.currentTransaction with
        | some tx =>
            let tx := setField tx "dispensedLiter" (JsValue.str (jsNumToString m.current))
            if (1 : Rat) ≤ m.current - m.lastSaved then
              ({ fsm with
                  currentTransaction := some tx,
                  meterReading := { m with lastSaved := m.current } },
               [Action.dbUpdateTransactionLiters (getField tx "id") (getField tx "DispensedLiter"),
                Action.emitMeterUpdate meterValue isStable])
            else
              ({ fsm with currentTransaction := some tx },
               [Action.emitMeterUpdate meterValue isStable])
        | none => (fsm, [Action.emitMeterUpdate meterValue isStable])
    | none => (fsm, [])
  else if strIncludes data "heartbeat" then
    ({ fsm with lastHeartbeatTime := now }, [])
  else if strIncludes data "nhb" then
    match matchNhb data with
    | some m =>
        if m.1 == fsm.nozzleId then
          ({ fsm with lastNozzleHeartbeatTime := now },
           [Action.uartSend ("cbhb(" ++ fsm.nozzleId ++ ")")])
        else (fsm, [])
    | none => (fsm, [])
  else if strIncludes data "rfid_match" then
    match matchRfidMatch data with
    | some m =>
        if m.1 == fsm.nozzleId then
          ({ fsm with
              lastRfidMatchTime := some now, lastNozzleHeartbeatTime := now,
              rfidInContact := true },
           [Action.emitRfidMatch m.1])
        else (fsm, [])
    | none => (fsm, [])
  else if strIncludes data "rfid_alarm" then
    match matchRfidAlarm data with
    | some nid =>
        if nid == fsm.nozzleId then
          let fsm := { fsm with
                        rfidInContact := false, rfidAlarmReceived := true,
                        lastNozzleHeartbeatTime := now }
          if fsm.currentState = .REFILL_PROGRESS then
            let tr := transition fsm .REFILL_INTERRUPT
              { lastReading := some fsm.meterReading.current }
              (some "RFID alarm received - tag contact lost") now
            (tr.1, tr.2 ++ [Action.emitRfidAlarm nid])
          else (fsm, [Action.emitRfidAlarm nid])
        else (fsm, [])
    | none => (fsm, [])
  else if strIncludes data "rfid_get" then
    let fsm := { fsm with lastNozzleHeartbeatTime := now }
    match parseRfidResponse data with
    | some info =>
        if fsm.currentState = .REFILL_GET_FIRST_RFID then
          let pr := processRfidResponse fsm info now
          (pr.1, pr.2 ++ [Action.emitRfidRead info.rfidTag])
        else (fsm, [Action.emitRfidRead info.rfidTag])
    | none => (fsm, [])
  else (fsm, [])

/-- FuelStateMachine.finalizeTransaction: a positive final reading writes
the transaction field dispensedLiter and issues the database updates,
where updateTransactionLiters passes the value of the missing field
DispensedLiter (capital D) as the liters argument; a zero reading deletes
the transaction.  Both paths clear the incomplete marker, reset
appInformed and the retry counter, and transition to
REFILL_WAIT_APP_INFORM.  (Log message details are elided; finalize is
only reached with a live transaction, modelled by getD.) -/
def finalizeTransaction (fsm : Fsm) (finalReading : Rat) (now : Nat) : Fsm × List Action :=
  if 0 < finalReading then
    let m := { fsm.meterReading with current := finalReading }
    let tx := setField (fsm.currentTransaction.getD []) "dispensedLiter"
                (JsValue.str (jsNumToString finalReading))
    let fsm := { fsm with
                  meterReading := m, currentTransaction := some tx,
                  appInformed := false, requestStartTime := some now, retryCount := 1 }
    let tr := transition fsm .REFILL_WAIT_APP_INFORM
      { finalReading := some finalReading, transactionCompleted := some true }
      (some "Transaction finalized, waiting for app to fetch data") now
    (tr.1,
     [Action.logEvent "REFILL COMPLETE",
      Action.dbUpdateTransactionLiters (getField tx "id") (getField tx "DispensedLiter"),
      Action.dbAddLitersDispensed finalReading,
      Action.dbClearIncompleteTransaction,
      Action.playSound "TRANSACTION_ADDED_TO_DB"] ++ tr.2)
  else
    let tx0 := fsm.currentTransaction.getD []
    let fsm := { fsm with appInformed := false, requestStartTime := some now, retryCount := 1 }
    let tr := transition fsm .REFILL_WAIT_APP_INFORM
      { finalReading := some finalReading, transactionCompleted := some false }
      (some "Transaction finalized, waiting for app to fetch data") now
    (tr.1,
     [Action.logEvent "0L DISPENSE",
      Action.dbDeleteTransaction (getField tx0 "id"),
      Action.dbClearIncompleteTransaction] ++ tr.2)

/-- Outcome of the drf-submit route. -/
inductive DrfResult
  | ok
  | badRequest (error : String)
deriving DecidableEq

/-- The POST /api/drf-submit handler of src/routes/api.js.  The
kilometers argument models req.body.kilometers after the parseInt
conversion of a string body; none models a NaN or non-finite conversion
result.  Checks run in source order: invalid number, then the upper
bound, then the state guard (there is no lower bound), then the
transition, which carries no reason argument. -/
def drfSubmit (fsm : Fsm) (kilometers : Option Int) (now : Nat) :
    Fsm × DrfResult × List Action :=
  match kilometers with
  | none => (fsm, DrfResult.badRequest "Invalid kilometers value", [])
  | some km =>
      if 1000 < km then (fsm, DrfResult.badRequest "Kilometer reading too high", [])
      else if fsm.currentState ≠ .REFILL_WAIT_FOR_DRF_SUBMIT then
        (fsm, DrfResult.badRequest "Invalid state for DRF submit", [])
      else
        let tr := transition fsm .REFILL_READ_FIRST_METER { kilometers := some km } none now
        (tr.1, DrfResult.ok, tr.2)

/-- Responses of the POST /api/operation endpoint relevant here. -/
inductive OpResponse
  | invalid_token
  | refill_finished (liters : Rat)
deriving DecidableEq

/-- The refill_finish case of the POST /api/operation handler: after the
token check it transitions to REFILL_FORCE_STOP with no state guard, no
data and no reason, and reports lastStable as the finished liters. -/
def operationRefillFinish (fsm : Fsm) (tokenValid : Bool) (now : Nat) :
    Fsm × OpResponse × List Action :=
  if !tokenValid then (fsm, OpResponse.invalid_token, [])
  else
    let tr := transition fsm .REFILL_FORCE_STOP {} none now
    (tr.1, OpResponse.refill_finished tr.1.meterReading.lastStable, tr.2)

/-- Modelled from the claim text of C2 (the spec sentence): the filter is
stable iff the most recent two readings are exactly equal and at least
5000 ms have elapsed, measured from the arrival of the first reading of
the trailing run of equal values.  Defined over the full timed history so
it can be compared with the source filter. -/
def claimStableSpec (history : List (Rat × Nat)) (now : Nat) : Bool :=
  match history.reverse with
  | [] => false
  | (v, t) :: rest =>
      match rest with
      | [] => false
      | (v2, _) :: _ =>
          let runStart := (rest.takeWhile (fun p => p.1 == v)).foldl (fun _ p => p.2) t
          v == v2 && decide (5000 ≤ now - runStart)

/-- A concrete supervisor value in the constructor state (Idle, empty
history, zeroed filter, nozzle 0076), used to instantiate theorems. -/
def baseFsm : Fsm :=
  { currentState := .REFILL_OP_IDLE, previousState := none, stateData := {},
    stateTimestamp := 0, stateHistory := [], meterReading := initialMeterReading,
    currentTransaction := none, vehicle := none, fleetData := [], nozzleId := "0076",
    lastHeartbeatTime := 0, lastNozzleHeartbeatTime := 0, lastAppCommTime := 0,
    lastRfidMatchTime := none, rfidInContact := false, rfidAlarmReceived := false,
    appInformed := false, retryCount := 0, requestStartTime := none,
    lastUartResponse := none }

/-- A concrete fleet vehicle (tag from the happy-path scenario). -/
def vehicle1 : Vehicle :=
  { TagNumber := "E200001D8914005717701BFC", FleetNumber := "FL7",
    VehicleTankCapacity := 100, CurrentMachineHours := 0 }

/-- A supervisor waiting for the first RFID read, with one permitted
vehicle in the fleet set. -/
def rfidFsm : Fsm :=
  { baseFsm with currentState := .REFILL_GET_FIRST_RFID, fleetData := [vehicle1] }

/-- A supervisor waiting for the odometer submission. -/
def drfFsm : Fsm :=
  { baseFsm with currentState := .REFILL_WAIT_FOR_DRF_SUBMIT }

/-- A supervisor holding a live transaction whose id field is 42 and
whose dispensedLiter field is the string 0, as created by
initializeRefill and addTransactionToDb. -/
def txFsm : Fsm :=
  { baseFsm with
     currentState := .REFILL_LAST_METER_READ,
     currentTransaction := some [("id", JsValue.num 42), ("dispensedLiter", JsValue.str "0")] }

/-- Claim C1 (code bug witnessed at a failing input).  finalizeTransaction
with final reading 13 writes the string form of 13 into the
transaction field dispensedLiter, yet the updateTransactionLiters store
call receives the value of the absent field DispensedLiter, that is
undefined, so the persisted liters value is not the final stable meter
value.  The zero-reading path does delete the transaction as claimed. -/
theorem C1_finalize_code_bug :
    Action.dbUpdateTransactionLiters (JsValue.num 42) JsValue.undef
      ∈ (finalizeTransaction txFsm (13 : Rat) 9).2
    ∧ getField ((finalizeTransaction txFsm (13 : Rat) 9).1.currentTransaction.getD [])
        "dispensedLiter" = JsValue.str (jsNumToString (13 : Rat))
    ∧ getField ((finalizeTransaction txFsm (13 : Rat) 9).1.currentTransaction.getD [])
        "DispensedLiter" = JsValue.undef
    ∧ Action.dbDeleteTransaction (JsValue.num 42) ∈ (finalizeTransaction txFsm (0 : Rat) 9).2
    ∧ (finalizeTransaction txFsm (13 : Rat) 9).1.currentState = .REFILL_WAIT_APP_INFORM := by
  decide

/-- Claim C4, counterexample: in Idle, with a valid token, the
refill_finish operation is not rejected; it mutates the supervisor state
to REFILL_FORCE_STOP, contradicting the claim that only Dispensing and
Interrupted accept force-stop. -/
theorem C4_counterexample :
    baseFsm.currentState = .REFILL_OP_IDLE
    ∧ (operationRefillFinish baseFsm true 5).1.currentState = .REFILL_FORCE_STOP
    ∧ (operationRefillFinish baseFsm true 5).1.currentState ≠ baseFsm.currentState := by
  decide

/-- Claim C4 (amended): a refill_finish request with a valid token
transitions the supervisor to ForceStopping from every state, with no
state guard at the boundary (the recorded reason is the default string
since the handler passes none); the reply carries lastStable as the
finished liters; an invalid token leaves the supervisor untouched. -/
theorem C4_amended (fsm : Fsm) (now : Nat) :
    (operationRefillFinish fsm true now).1.currentState = .REFILL_FORCE_STOP
    ∧ (operationRefillFinish fsm true now).1.stateHistory =
        fsm.stateHistory ++
          [{ fromState := fsm.currentState, toState := .REFILL_FORCE_STOP,
             reason := "No reason provided", data := {}, timestamp := now }]
    ∧ (operationRefillFinish fsm true now).2.1 =
        OpResponse.refill_finished fsm.meterReading.lastStable
    ∧ (operationRefillFinish fsm false now).1 = fsm
    ∧ (operationRefillFinish fsm false now).2.1 = OpResponse.invalid_token := by
  simp [operationRefillFinish, transition, reasonOrDefault]

/-- Claim C5, counterexample: kilometers minus one, submitted in
AwaitingOdometer, is accepted and moves the supervisor to
ReadingFirstMeter, although the claim requires a 400 response for any
negative value. -/
theorem C5_counterexample :
    drfFsm.currentState = .REFILL_WAIT_FOR_DRF_SUBMIT
    ∧ (drfSubmit drfFsm (some (-1)) 3).2.1 = DrfResult.ok
    ∧ (drfSubmit drfFsm (some (-1)) 3).1.currentState = .REFILL_READ_FIRST_METER := by
  decide

/-- Claim C5 (amended): the drf-submit handler accepts a submission iff
the supervisor state is REFILL_WAIT_FOR_DRF_SUBMIT and kilometers parses
to an integer at most 1000; there is no lower bound, so negatives are
accepted.  1000 is accepted and 1001 rejected (upper bound strict on the
reject side); every rejection leaves the supervisor unchanged, and every
acceptance moves it to REFILL_READ_FIRST_METER. -/
theorem C5_amended (fsm : Fsm) (kilometers : Option Int) (now : Nat) :
    ((drfSubmit fsm kilometers now).2.1 = DrfResult.ok ↔
      (fsm.currentState = .REFILL_WAIT_FOR_DRF_SUBMIT ∧
       ∃ k, kilometers = some k ∧ k ≤ 1000))
    ∧ ((drfSubmit fsm kilometers now).2.1 = DrfResult.ok →
        (drfSubmit fsm kilometers now).1.currentState = .REFILL_READ_FIRST_METER)
    ∧ ((drfSubmit fsm kilometers now).2.1 ≠ DrfResult.ok →
        (drfSubmit fsm kilometers now).1 = fsm) := by
  match kilometers with
  | none => simp [drfSubmit]
  | some k =>
      by_cases hk : 1000 < k
      · simp [drfSubmit, hk]
      · by_cases hs : fsm.currentState = .REFILL_WAIT_FOR_DRF_SUBMIT
        · simp [drfSubmit, hk, hs, transition]
          omega
        · simp [drfSubmit, hk, hs]

/-- Claim C5, witness: the boundary value 1000 submitted in
AwaitingOdometer is accepted. -/
theorem C5_amended_witness :
    (drfSubmit drfFsm (some 1000) 3).2.1 = DrfResult.ok :=
  (C5_amended drfFsm (some 1000) 3).1.mpr ⟨by decide, 1000, rfl, by decide⟩

/-- Claim C6, counterexample: a present tag that is not in the fleet set,
received while in AwaitingFirstRfid, does not leave the supervisor in
AwaitingFirstRfid; processRfidResponse transitions it to Idle. -/
theorem C6_counterexample :
    rfidFsm.currentState = .REFILL_GET_FIRST_RFID
    ∧ (processRfidResponse rfidFsm
        { nozzleId := "0076", rfidTag := "AAAAAAAAAAAAAAAAAAAAAAAA", batteryState := 2013 }
        9).1.currentState = .REFILL_OP_IDLE
    ∧ (processRfidResponse rfidFsm
        { nozzleId := "0076", rfidTag := "AAAAAAAAAAAAAAAAAAAAAAAA", batteryState := 2013 }
        9).1.currentState ≠ .REFILL_GET_FIRST_RFID := by
  decide

/-- Claim C6 (amended): on a present tag absent from the fleet set,
processRfidResponse transitions the supervisor to Idle (not remaining in
AwaitingFirstRfid), emitting only the state-change event — in particular
no transaction is created, no store call is issued; a tag found in the
fleet set binds the matching vehicle and transitions to AwaitingOdometer;
a dash tag is ignored entirely. -/
theorem C6_amended (fsm : Fsm) (info : RfidInfo) (now : Nat) :
    (info.rfidTag ≠ "-" →
      fsm.fleetData.find? (fun v => v.TagNumber == info.rfidTag) = none →
      (processRfidResponse fsm info now).1.currentState = .REFILL_OP_IDLE
      ∧ (processRfidResponse fsm info now).2 =
          [Action.emitStateChange
            { fromState := fsm.currentState, toState := .REFILL_OP_IDLE,
              reason := "RFID tag validation failed - tag not found in fleet database",
              data := { rfidInfo := some info }, timestamp := now }])
    ∧ (∀ v, info.rfidTag ≠ "-" →
        fsm.fleetData.find? (fun w => w.TagNumber == info.rfidTag) = some v →
        (processRfidResponse fsm info now).1.currentState = .REFILL_WAIT_FOR_DRF_SUBMIT
        ∧ (processRfidResponse fsm info now).1.vehicle = some v)
    ∧ (info.rfidTag = "-" → processRfidResponse fsm info now = (fsm, [])) := by
  refine ⟨?_, ?_, ?_⟩
  · intro hdash hfind
    simp [processRfidResponse, hdash, hfind, transition, reasonOrDefault]
  · intro v hdash hfind
    simp [processRfidResponse, hdash, hfind, transition, reasonOrDefault]
  · intro hdash
    simp [processRfidResponse, hdash]

/-- Claim C6, witness: the happy-path tag, present in the fleet set,
moves AwaitingFirstRfid to AwaitingOdometer with vehicle1 bound. -/
theorem C6_amended_witness :
    (processRfidResponse rfidFsm
      { nozzleId := "0076", rfidTag := "E200001D8914005717701BFC", batteryState := 2013 }
      9).1.currentState = .REFILL_WAIT_FOR_DRF_SUBMIT :=
  ((C6_amended rfidFsm
      { nozzleId := "0076", rfidTag := "E200001D8914005717701BFC", batteryState := 2013 }
      9).2.1 vehicle1 (by decide) (by decide)).1

/-- Claim C9, counterexample: a transition called with the empty string
as its reason records the default string instead of the given reason,
although the reason argument was present, because the source replaces
every falsy reason. -/
theorem C9_counterexample :
    (transition baseFsm .REFILL_OP_START {} (some "") 7).1.stateHistory.map
      (fun t => t.reason) = ["No reason provided"] := by
  decide

/-- Claim C9 (amended): transition commits unconditionally for every pair
of states — it never consults allowedTransitions or
validateStateTransition, committing even when validateStateTransition
reports the move invalid — sets currentState to the target, appends
exactly one history record whose fromState is the previous state, and
emits exactly one stateChange event; the recorded reason is the given
reason when it is a non-empty string and the non-empty default string
when the reason argument is absent or empty (falsy). -/
theorem C9_amended (fsm : Fsm) (s : StateName) (d : TransitionData)
    (reason : Option String) (now : Nat) :
    (transition fsm s d reason now).1.currentState = s
    ∧ (transition fsm s d reason now).1.previousState = some fsm.currentState
    ∧ (transition fsm s d reason now).1.stateHistory =
        fsm.stateHistory ++
          [{ fromState := fsm.currentState, toState := s,
             reason := reasonOrDefault reason, data := d, timestamp := now }]
    ∧ (transition fsm s d reason now).2 =
        [Action.emitStateChange
          { fromState := fsm.currentState, toState := s,
            reason := reasonOrDefault reason, data := d, timestamp := now }]
    ∧ reasonOrDefault reason ≠ ""
    ∧ (∀ r, reason = some r → r ≠ "" → reasonOrDefault reason = r)
    ∧ ((validateStateTransition fsm.currentState s d now).valid = false →
        (transition fsm s d reason now).1.currentState = s) := by
  refine ⟨rfl, rfl, rfl, rfl, ?_, ?_, fun _ => rfl⟩
  · cases reason with
    | none => simp [reasonOrDefault]
    | some r =>
        simp only [reasonOrDefault]
        split
        · simp
        · next h => simpa using fun hr => h (by simp [hr])
  · intro r hr hne
    subst hr
    simp [reasonOrDefault, hne]

/-- Claim C9, witness: from Idle to ForceStopping — a move that
validateStateTransition reports invalid — transition still commits. -/
theorem C9_amended_witness :
    (validateStateTransition baseFsm.currentState .REFILL_FORCE_STOP {} 3).valid = false
    ∧ (transition baseFsm .REFILL_FORCE_STOP {} none 3).1.currentState = .REFILL_FORCE_STOP :=
  ⟨by decide, (C9_amended baseFsm .REFILL_FORCE_STOP {} none 3).2.2.2.2.2.2 (by decide)⟩

/-- Claim C10 (confirmed): a transport error makes the port reject every
outstanding request with that error, clearing the deadline timer of each,
and empties the pending table, so no request stays pending. -/
theorem C10_theorem (pending : List PendingCommand) (err : String) :
    (handleError pending err).2 = []
    ∧ (handleError pending err).1 =
        Action.emitError err ::
          (pending.map (fun c => [Action.clearTimer c.commandId,
                                  Action.rejectRequest c.commandId err])).flatten
    ∧ ∀ c ∈ pending,
        Action.rejectRequest c.commandId err ∈ (handleError pending err).1
        ∧ Action.clearTimer c.commandId ∈ (handleError pending err).1 := by
  refine ⟨rfl, rfl, ?_⟩
  intro c hc
  constructor
  · simp only [handleError, List.mem_cons, List.mem_flatten, List.mem_map]
    exact Or.inr ⟨_, ⟨c, hc, rfl⟩, by simp⟩
  · simp only [handleError, List.mem_cons, List.mem_flatten, List.mem_map]
    exact Or.inr ⟨_, ⟨c, hc, rfl⟩, by simp⟩

/-- Claim C10, witness: a concrete pending meter_read request is rejected
and its timer cleared on a transport error. -/
theorem C10_theorem_witness :
    Action.rejectRequest 5 "boom" ∈
      (handleError [{ commandId := 5, originalCommand := "meter_read()" }] "boom").1 :=
  ((C10_theorem [{ commandId := 5, originalCommand := "meter_read()" }] "boom").2.2
    { commandId := 5, originalCommand := "meter_read()" } (by simp)).1

/-- addMeterReading never changes the threshold or the timeout. -/
theorem addMeterReading_config (m : MeterReading) (v : Rat) (t : Nat) :
    (addMeterReading m v t).1.stabilityThreshold = m.stabilityThreshold
    ∧ (addMeterReading m v t).1.stabilityTimeoutMs = m.stabilityTimeoutMs := by
  simp only [addMeterReading]
  split <;> split <;> split <;> simp

/-- With a nonempty window, addMeterReading keeps the stability
timestamp. -/
theorem addMeterReading_ts_of_ne (m : MeterReading) (v : Rat) (t : Nat)
    (h : m.readings ≠ []) :
    (addMeterReading m v t).1.stabilityTimestamp = m.stabilityTimestamp := by
  have he : m.readings.isEmpty = false := by
    cases hm : m.readings with
    | nil => exact absurd hm h
    | cons a as => simp
  simp only [addMeterReading, he, Bool.false_eq_true, if_false]
  split <;> split <;> simp

/-- On an empty window, addMeterReading stamps the current time. -/
theorem addMeterReading_ts_of_empty (m : MeterReading) (v : Rat) (t : Nat)
    (h : m.readings = []) :
    (addMeterReading m v t).1.stabilityTimestamp = some t := by
  simp only [addMeterReading, h, List.isEmpty_nil, if_true]
  split <;> split <;> simp

/-- The window produced by addMeterReading: the reading is appended and,
above twice the threshold, the oldest entry is shifted out. -/
theorem addMeterReading_readings_eq (m : MeterReading) (v : Rat) (t : Nat) :
    (addMeterReading m v t).1.readings =
      (if m.stabilityThreshold * 2 < (m.readings ++ [v]).length
       then (m.readings ++ [v]).tail else m.readings ++ [v]) := by
  simp only [addMeterReading]
  split <;> split <;> split <;> simp_all

/-- With a positive threshold, the window after addMeterReading ends with
the reading just pushed (the shift only removes from the front). -/
theorem addMeterReading_ends (m : MeterReading) (v : Rat) (t : Nat)
    (hth : 1 ≤ m.stabilityThreshold) :
    ∃ l, (addMeterReading m v t).1.readings = l ++ [v] := by
  rw [addMeterReading_readings_eq]
  cases hm : m.readings with
  | nil =>
      have hng : ¬ (m.stabilityThreshold * 2 < (([] : List Rat) ++ [v]).length) := by
        simp
        omega
      rw [if_neg hng]
      exact ⟨[], rfl⟩
  | cons a as =>
      split
      · exact ⟨as, rfl⟩
      · exact ⟨a :: as, rfl⟩

/-- With a positive threshold, the window after addMeterReading is
nonempty. -/
theorem addMeterReading_readings_ne (m : MeterReading) (v : Rat) (t : Nat)
    (hth : 1 ≤ m.stabilityThreshold) :
    (addMeterReading m v t).1.readings ≠ [] := by
  obtain ⟨l, hl⟩ := addMeterReading_ends m v t hth
  rw [hl]
  simp

/-- A window ending in two equal readings, threshold 2, 5000 ms window,
and enough elapsed time since the stability timestamp, is stable. -/
theorem isStable_of_double (m : MeterReading) (t : Nat) (l : List Rat) (v : Rat)
    (hr : m.readings = l ++ [v, v]) (hth : m.stabilityThreshold = 2)
    (hto : m.stabilityTimeoutMs = 5000)
    (hts : m.stabilityTimestamp.getD 0 + 5000 ≤ t) :
    isMeterReadingStable m t = true := by
  unfold isMeterReadingStable
  rw [hr, hth, hto]
  have hlen : ¬ ((l ++ [v, v]).length < 2) := by simp
  rw [if_neg hlen]
  have hdrop : (l ++ [v, v]).drop ((l ++ [v, v]).length - 2) = [v, v] := by
    have h2 : (l ++ [v, v]).length - 2 = l.length := by simp
    rw [h2, List.drop_left]
  simp only [hdrop, List.all_cons, List.all_nil, List.headD_cons, beq_self_eq_true,
    Bool.and_true, if_true, decide_eq_true_eq]
  omega

/-- Second half of the two-step stability law: if the window already ends
with v and the stability timestamp is old enough, processing v again at
time t2 reports stable and advances lastStable to v. -/
theorem addMeterReading_stable_step (m : MeterReading) (v : Rat) (t2 : Nat)
    (hth : m.stabilityThreshold = 2) (hto : m.stabilityTimeoutMs = 5000)
    (hlast : ∃ l, m.readings = l ++ [v])
    (hts : m.stabilityTimestamp.getD 0 + 5000 ≤ t2) :
    (addMeterReading m v t2).2 = true ∧ (addMeterReading m v t2).1.lastStable = v := by
  obtain ⟨l, hl⟩ := hlast
  have hne : m.readings.isEmpty = false := by rw [hl]; simp
  simp only [addMeterReading, hne, Bool.false_eq_true, if_false]
  by_cases hshift : m.stabilityThreshold * 2 < (m.readings ++ [v]).length
  · rw [if_pos hshift]
    -- the shift happens only on a long window, so l is nonempty
    have hllen : 3 ≤ l.length := by
      rw [hl] at hshift
      simp only [List.length_append, List.length_cons, List.length_nil, hth] at hshift
      omega
    cases l with
    | nil => simp at hllen
    | cons a as =>
        have hstable : isMeterReadingStable
            { m with readings := as ++ [v, v], current := v } t2 = true := by
          refine isStable_of_double _ t2 as v (by simp) (by simp [hth]) (by simp [hto]) ?_
          simpa using hts
        rw [hl]
        simp [hstable]
  · rw [if_neg hshift]
    have hstable : isMeterReadingStable
        { m with readings := m.readings ++ [v], current := v } t2 = true := by
      refine isStable_of_double _ t2 l v (by rw [hl]; simp) (by simp [hth]) (by simp [hto]) ?_
      simpa using hts
    simp [hstable]

/-- Unfolding processReadings one step (only the filter component
matters to the next step). -/
theorem processReadings_fst_cons (m : MeterReading) (p : Rat × Nat) (rest : List (Rat × Nat)) :
    (processReadings m (p :: rest)).1 =
      (processReadings (addMeterReading m p.1 p.2).1 rest).1 := by
  cases rest with
  | nil => rfl
  | cons q qs => rfl

/-- Unfolding processReadings at the last element. -/
theorem processReadings_append_last (m : MeterReading) (l : List (Rat × Nat)) (p : Rat × Nat) :
    processReadings m (l ++ [p]) =
      addMeterReading (processReadings m l).1 p.1 p.2 := by
  simp [processReadings, List.foldl_append]

/-- Folding readings over a configured nonempty filter preserves the
configuration, the nonemptiness of the window, and the stability
timestamp. -/
theorem processReadings_invariant (l : List (Rat × Nat)) (m : MeterReading)
    (hth : m.stabilityThreshold = 2) (hto : m.stabilityTimeoutMs = 5000)
    (hne : m.readings ≠ []) :
    (processReadings m l).1.stabilityThreshold = 2
    ∧ (processReadings m l).1.stabilityTimeoutMs = 5000
    ∧ (processReadings m l).1.readings ≠ []
    ∧ (processReadings m l).1.stabilityTimestamp = m.stabilityTimestamp := by
  induction l generalizing m with
  | nil => exact ⟨hth, hto, hne, rfl⟩
  | cons p rest ih =>
      have hcfg := addMeterReading_config m p.1 p.2
      have hts := addMeterReading_ts_of_ne m p.1 p.2 hne
      have hne2 := addMeterReading_readings_ne m p.1 p.2 (by omega)
      have step := ih (addMeterReading m p.1 p.2).1
        (by rw [hcfg.1, hth]) (by rw [hcfg.2, hto]) hne2
      refine ⟨?_, ?_, ?_, ?_⟩ <;> rw [processReadings_fst_cons]
      · exact step.1
      · exact step.2.1
      · exact step.2.2.1
      · rw [step.2.2.2, hts]

/-- Claim C2, counterexample: readings 1 at t=0, 2 at t=3000, 2 at
t=5000.  The equal run of 2s spans only 2000 ms, so the claim as stated
says not stable, yet the filter reports stable because it measures the
5000 ms from the first reading ever recorded, not from the first of the
equal run. -/
theorem C2_counterexample :
    (processReadings initialMeterReading
      [((1 : Rat), 0), ((2 : Rat), 3000), ((2 : Rat), 5000)]).2 = true
    ∧ claimStableSpec [((1 : Rat), 0), ((2 : Rat), 3000), ((2 : Rat), 5000)] 5000 = false := by
  decide

/-- Claim C2 (amended): the filter reports stable iff the most recent
N = 2 readings in the window are exactly equal and at least 5000 ms have
elapsed since the first reading recorded after the window was last empty
(not since the first of the equal run); the round-trip law is preserved:
for any run from the reset filter whose last two replies are the equal
value v with arrival gap at least 5 s (arrival times in order), the
filter reports stable with value v. -/
theorem C2_amended :
    (∀ (m : MeterReading) (now : Nat),
      isMeterReadingStable m now = true ↔
        (m.stabilityThreshold ≤ m.readings.length
         ∧ (m.readings.drop (m.readings.length - m.stabilityThreshold)).all
             (fun r => r == (m.readings.drop
               (m.readings.length - m.stabilityThreshold)).headD 0) = true
         ∧ m.stabilityTimeoutMs ≤ now - m.stabilityTimestamp.getD 0))
    ∧ (∀ (pre : List (Rat × Nat)) (v : Rat) (t1 t2 : Nat),
        (∀ p ∈ pre, p.2 ≤ t1) → t1 + 5000 ≤ t2 →
        (processReadings initialMeterReading (pre ++ [(v, t1), (v, t2)])).2 = true
        ∧ (processReadings initialMeterReading (pre ++ [(v, t1), (v, t2)])).1.lastStable = v) := by
  constructor
  · intro m now
    simp only [isMeterReadingStable]
    split
    · rename_i hlt
      simp only [Bool.false_eq_true, false_iff]
      rintro ⟨h1, -, -⟩
      omega
    · rename_i hlt
      split
      · rename_i hall
        simp only [decide_eq_true_eq]
        constructor
        · intro ht
          exact ⟨by omega, hall, ht⟩
        · rintro ⟨-, -, ht⟩
          exact ht
      · rename_i hall
        simp only [Bool.false_eq_true, false_iff]
        rintro ⟨-, h2, -⟩
        exact hall h2
  · intro pre v t1 t2 hpre hgap
    -- rewrite the run as (pre ++ [(v, t1)]) ++ [(v, t2)]
    have hsplit : pre ++ [(v, t1), (v, t2)] = (pre ++ [(v, t1)]) ++ [(v, t2)] := by simp
    rw [hsplit, processReadings_append_last]
    -- the filter state after the prefix and the first v
    have hM1 : processReadings initialMeterReading (pre ++ [(v, t1)]) =
        addMeterReading (processReadings initialMeterReading pre).1 v t1 :=
      processReadings_append_last _ _ _
    rw [hM1]
    -- facts about the state after the prefix
    have hM0 : (processReadings initialMeterReading pre).1.stabilityThreshold = 2
        ∧ (processReadings initialMeterReading pre).1.stabilityTimeoutMs = 5000
        ∧ ((processReadings initialMeterReading pre).1.stabilityTimestamp.getD 0 + 5000 ≤ t2) := by
      cases pre with
      | nil =>
          refine ⟨rfl, rfl, ?_⟩
          simp [processReadings, initialMeterReading]
          omega
      | cons p rest =>
          have h0 : (addMeterReading initialMeterReading p.1 p.2).1.stabilityThreshold = 2 :=
            (addMeterReading_config _ _ _).1
          have h0b : (addMeterReading initialMeterReading p.1 p.2).1.stabilityTimeoutMs = 5000 :=
            (addMeterReading_config _ _ _).2
          have h0c : (addMeterReading initialMeterReading p.1 p.2).1.stabilityTimestamp =
              some p.2 :=
            addMeterReading_ts_of_empty _ _ _ rfl
          have h0d := addMeterReading_readings_ne initialMeterReading p.1 p.2 (by decide)
          have inv := processReadings_invariant rest
            (addMeterReading initialMeterReading p.1 p.2).1 h0 h0b h0d
          rw [processReadings_fst_cons]
          refine ⟨inv.1, inv.2.1, ?_⟩
          rw [inv.2.2.2, h0c]
          have hp : p.2 ≤ t1 := hpre p (by simp)
          simp
          omega
    -- the state after the first v ends with v and keeps an old timestamp
    have hcfg := addMeterReading_config (processReadings initialMeterReading pre).1 v t1
    have hends := addMeterReading_ends (processReadings initialMeterReading pre).1 v t1
      (by omega)
    have htsv : (addMeterReading (processReadings initialMeterReading pre).1 v t1).1.stabilityTimestamp.getD 0
        + 5000 ≤ t2 := by
      cases hpre0 : (processReadings initialMeterReading pre).1.readings with
      | nil =>
          rw [addMeterReading_ts_of_empty _ _ _ hpre0]
          simpa using hgap
      | cons a as =>
          rw [addMeterReading_ts_of_ne _ _ _ (by rw [hpre0]; simp)]
          exact hM0.2.2
    exact addMeterReading_stable_step _ v t2 (by rw [hcfg.1, hM0.1]) (by rw [hcfg.2, hM0.2.1])
      hends htsv

/-- Claim C2, witness: two replies of value 7 with a 5 s gap from the
reset filter report stable with value 7. -/
theorem C2_amended_witness :
    (processReadings initialMeterReading [((7 : Rat), 0), ((7 : Rat), 5000)]).2 = true
    ∧ (processReadings initialMeterReading [((7 : Rat), 0), ((7 : Rat), 5000)]).1.lastStable = 7 := by
  have h := C2_amended.2 [] (7 : Rat) 0 5000 (by simp) (by omega)
  simpa using h

/-- Claim C3, counterexample: after a stable run at 10 (two readings 5 s
apart), a reading of 3 drops current to 3 while lastStable stays 10, so
lastStable is greater than current; and a subsequent second 3 forms a
stable run that lowers lastStable from 10 to 3 — a reading strictly less
than lastStable did decrease it. -/
theorem C3_counterexample :
    (processReadings initialMeterReading
      [((10 : Rat), 0), ((10 : Rat), 5000), ((3 : Rat), 5001)]).1.lastStable = 10
    ∧ (processReadings initialMeterReading
        [((10 : Rat), 0), ((10 : Rat), 5000), ((3 : Rat), 5001)]).1.current = 3
    ∧ ¬ ((processReadings initialMeterReading
          [((10 : Rat), 0), ((10 : Rat), 5000), ((3 : Rat), 5001)]).1.lastStable ≤
         (processReadings initialMeterReading
          [((10 : Rat), 0), ((10 : Rat), 5000), ((3 : Rat), 5001)]).1.current)
    ∧ (processReadings initialMeterReading
        [((10 : Rat), 0), ((10 : Rat), 5000), ((3 : Rat), 5001), ((3 : Rat), 11000)]).1.lastStable
        = 3 := by
  decide

/-- Claim C3 (amended): each processed reading becomes current; lastStable
changes only when the reading is reported stable, in which case it becomes
that reading (so lastStable ≤ current holds at stable moments, while an
unstable lower reading leaves lastStable above current, and a stable lower
run decreases lastStable). -/
theorem C3_amended (m : MeterReading) (r : Rat) (t : Nat) :
    (addMeterReading m r t).1.current = r
    ∧ ((addMeterReading m r t).2 = true → (addMeterReading m r t).1.lastStable = r)
    ∧ ((addMeterReading m r t).2 = false → (addMeterReading m r t).1.lastStable = m.lastStable)
    ∧ ((addMeterReading m r t).2 = true →
        (addMeterReading m r t).1.lastStable ≤ (addMeterReading m r t).1.current) := by
  simp only [addMeterReading]
  split <;> split <;> split <;> simp_all

/-- Claim C3, witness: the very first reading is unstable (window shorter
than the threshold), so lastStable keeps its reset value. -/
theorem C3_amended_witness :
    (addMeterReading initialMeterReading 5 0).1.lastStable = initialMeterReading.lastStable :=
  (C3_amended initialMeterReading 5 0).2.2.1 (by decide)

/-- processRfidResponse never touches the nozzle last-seen timestamp. -/
theorem processRfidResponse_nozzleTime (fsm : Fsm) (info : RfidInfo) (now : Nat) :
    (processRfidResponse fsm info now).1.lastNozzleHeartbeatTime =
      fsm.lastNozzleHeartbeatTime := by
  simp only [processRfidResponse]
  split
  · rfl
  · cases hfind : fsm.fleetData.find? (fun v => v.TagNumber == info.rfidTag) with
    | some v => simp [hfind, transition]
    | none => simp [hfind, transition]

/-- The nozzle last-seen timestamp after handleUartResponse, as a closed
form over the branch structure of the source: meter_read and heartbeat
frames leave it alone; nhb, rfid_match and rfid_alarm refresh it only
under the nozzle-id check; any rfid_get frame refreshes it
unconditionally; unrecognized frames leave it alone. -/
theorem handleUart_nozzleTime (fsm : Fsm) (data : String) (now : Nat) :
    (handleUartResponse fsm data now).1.lastNozzleHeartbeatTime =
      (if strIncludes data "meter_read" then fsm.lastNozzleHeartbeatTime
       else if strIncludes data "heartbeat" then fsm.lastNozzleHeartbeatTime
       else if strIncludes data "nhb" then
         (match matchNhb data with
          | some p => if p.1 == fsm.nozzleId then now else fsm.lastNozzleHeartbeatTime
          | none => fsm.lastNozzleHeartbeatTime)
       else if strIncludes data "rfid_match" then
         (match matchRfidMatch data with
          | some p => if p.1 == fsm.nozzleId then now else fsm.lastNozzleHeartbeatTime
          | none => fsm.lastNozzleHeartbeatTime)
       else if strIncludes data "rfid_alarm" then
         (match matchRfidAlarm data with
          | some nid => if nid == fsm.nozzleId then now else fsm.lastNozzleHeartbeatTime
          | none => fsm.lastNozzleHeartbeatTime)
       else if strIncludes data "rfid_get" then now
       else fsm.lastNozzleHeartbeatTime) := by
  simp only [handleUartResponse]
  repeat' split
  all_goals simp [processRfidResponse_nozzleTime, transition]

/-- Claim C7, counterexample: an rfid_get reply carrying nozzle id 9999,
different from the configured 0076, still refreshes the nozzle last-seen
timestamp, contradicting the claim that only rfid_get replies with the
configured nozzle id refresh it. -/
theorem C7_counterexample :
    baseFsm.nozzleId = "0076"
    ∧ (handleUartResponse baseFsm "rfid_get(9999,AABB01,2013)" 77).1.lastNozzleHeartbeatTime = 77
    ∧ baseFsm.lastNozzleHeartbeatTime ≠ 77 := by
  decide

/-- Claim C7 (amended): the nozzle last-seen timestamp is refreshed
exactly by nhb, rfid_match and rfid_alarm frames carrying the configured
nozzle id and by every rfid_get frame regardless of its nozzle id; it is
never refreshed by meter_read or board heartbeat frames, nor by frames
matching none of the six verbs. -/
theorem C7_amended (fsm : Fsm) (data : String) (now : Nat) :
    (strIncludes data "meter_read" = true →
      (handleUartResponse fsm data now).1.lastNozzleHeartbeatTime =
        fsm.lastNozzleHeartbeatTime)
    ∧ (strIncludes data "meter_read" = false → strIncludes data "heartbeat" = true →
      (handleUartResponse fsm data now).1.lastNozzleHeartbeatTime =
        fsm.lastNozzleHeartbeatTime)
    ∧ (strIncludes data "meter_read" = false → strIncludes data "heartbeat" = false →
       strIncludes data "nhb" = true →
      (handleUartResponse fsm data now).1.lastNozzleHeartbeatTime =
        (match matchNhb data with
         | some p => if p.1 == fsm.nozzleId then now else fsm.lastNozzleHeartbeatTime
         | none => fsm.lastNozzleHeartbeatTime))
    ∧ (strIncludes data "meter_read" = false → strIncludes data "heartbeat" = false →
       strIncludes data "nhb" = false → strIncludes data "rfid_match" = true →
      (handleUartResponse fsm data now).1.lastNozzleHeartbeatTime =
        (match matchRfidMatch data with
         | some p => if p.1 == fsm.nozzleId then now else fsm.lastNozzleHeartbeatTime
         | none => fsm.lastNozzleHeartbeatTime))
    ∧ (strIncludes data "meter_read" = false → strIncludes data "heartbeat" = false →
       strIncludes data "nhb" = false → strIncludes data "rfid_match" = false →
       strIncludes data "rfid_alarm" = true →
      (handleUartResponse fsm data now).1.lastNozzleHeartbeatTime =
        (match matchRfidAlarm data with
         | some nid => if nid == fsm.nozzleId then now else fsm.lastNozzleHeartbeatTime
         | none => fsm.lastNozzleHeartbeatTime))
    ∧ (strIncludes data "meter_read" = false → strIncludes data "heartbeat" = false →
       strIncludes data "nhb" = false → strIncludes data "rfid_match" = false →
       strIncludes data "rfid_alarm" = false → strIncludes data "rfid_get" = true →
      (handleUartResponse fsm data now).1.lastNozzleHeartbeatTime = now)
    ∧ (strIncludes data "meter_read" = false → strIncludes data "heartbeat" = false →
       strIncludes data "nhb" = false → strIncludes data "rfid_match" = false →
       strIncludes data "rfid_alarm" = false → strIncludes data "rfid_get" = false →
      (handleUartResponse fsm data now).1.lastNozzleHeartbeatTime =
        fsm.lastNozzleHeartbeatTime) := by
  have h := handleUart_nozzleTime fsm data now
  refine ⟨?_, ?_, ?_, ?_, ?_, ?_, ?_⟩
  · intro h1
    rw [h, if_pos h1]
  · intro h1 h2
    rw [h]
    simp [h1, h2]
  · intro h1 h2 h3
    rw [h]
    simp [h1, h2, h3]
  · intro h1 h2 h3 h4
    rw [h]
    simp [h1, h2, h3, h4]
  · intro h1 h2 h3 h4 h5
    rw [h]
    simp [h1, h2, h3, h4, h5]
  · intro h1 h2 h3 h4 h5 h6
    rw [h]
    simp [h1, h2, h3, h4, h5, h6]
  · intro h1 h2 h3 h4 h5 h6
    rw [h]
    simp [h1, h2, h3, h4, h5, h6]

/-- Claim C7, witness: a meter_read reply leaves the nozzle last-seen
timestamp untouched. -/
theorem C7_amended_witness :
    (handleUartResponse baseFsm "meter_read(7)" 9).1.lastNozzleHeartbeatTime =
      baseFsm.lastNozzleHeartbeatTime :=
  (C7_amended baseFsm "meter_read(7)" 9).1 (by decide)

/-- A Boolean prefix yields a concatenation decomposition. -/
theorem isPrefixOf_exists {p l : List Char} (h : p.isPrefixOf l = true) :
    ∃ t, l = p ++ t := by
  induction p generalizing l with
  | nil => exact ⟨l, rfl⟩
  | cons a as ih =>
      cases l with
      | nil => simp [List.isPrefixOf] at h
      | cons b bs =>
          simp only [List.isPrefixOf, Bool.and_eq_true, beq_iff_eq] at h
          obtain ⟨t, ht⟩ := ih h.2
          exact ⟨t, by rw [h.1, ht]; rfl⟩

/-- Claim C8, counterexample: with a pending rfid_match_status request
(classified unknown), an inbound rfid_match frame resolves it, so frames
of the verb rfid_match do not always stay unsolicited. -/
theorem C8_counterexample :
    Action.resolveRequest 1 "rfid_match(0076,3)" ∈
      (handleData [{ commandId := 1, originalCommand := "rfid_match_status()" }]
        "rfid_match(0076,3)").1
    ∧ (handleData [{ commandId := 1, originalCommand := "rfid_match_status()" }]
        "rfid_match(0076,3)").2 = [] := by
  decide

/-- Claim C8 (amended): the port emits the data event before any
correlation; an inbound frame resolves exactly the oldest pending request
whose verb family equals the frame's family, deleting it from the table,
and leaves the table alone when no family matches; rfid_match, rfid_alarm
and nhb frames classify as the unknown family, so they never resolve a
pending request of a known family (heartbeat, hls_read, meter_read,
rfid_get) and are unsolicited whenever no unknown-family request is
pending — but they do resolve an oldest pending request whose command is
itself of the unknown family. -/
theorem C8_amended :
    (∀ (pending : List PendingCommand) (data : String),
      ((handleData pending data).1).head? = some (Action.emitData data))
    ∧ (∀ (pending : List PendingCommand) (data : String) (c : PendingCommand),
        pending.find? (fun p => getCommandType p.originalCommand == getCommandType data)
          = some c →
        (handleData pending data).1 =
          [Action.emitData data, Action.clearTimer c.commandId,
           Action.resolveRequest c.commandId data]
        ∧ (handleData pending data).2 =
            pending.eraseP
              (fun p => getCommandType p.originalCommand == getCommandType data))
    ∧ (∀ (pending : List PendingCommand) (data : String),
        pending.find? (fun p => getCommandType p.originalCommand == getCommandType data)
          = none →
        handleData pending data = ([Action.emitData data], pending))
    ∧ (∀ (data : String),
        (strStartsWith data "rfid_match" = true ∨ strStartsWith data "rfid_alarm" = true ∨
         strStartsWith data "nhb" = true) →
        getCommandType data = "unknown")
    ∧ (∀ (pending : List PendingCommand) (data : String),
        getCommandType data = "unknown" →
        (∀ p ∈ pending, getCommandType p.originalCommand ≠ "unknown") →
        ∀ i payload, Action.resolveRequest i payload ∉ (handleData pending data).1) := by
  refine ⟨?_, ?_, ?_, ?_, ?_⟩
  · intro pending data
    simp only [handleData]
    cases hfind : pending.find?
        (fun p => getCommandType p.originalCommand == getCommandType data) with
    | some c => simp [hfind]
    | none => simp [hfind]
  · intro pending data c hfind
    simp only [handleData]
    rw [hfind]
    exact ⟨rfl, rfl⟩
  · intro pending data hfind
    simp only [handleData]
    rw [hfind]
  · intro data h
    rcases h with h | h | h
    · obtain ⟨t, ht⟩ := isPrefixOf_exists h
      unfold getCommandType strStartsWith
      rw [ht]
      rfl
    · obtain ⟨t, ht⟩ := isPrefixOf_exists h
      unfold getCommandType strStartsWith
      rw [ht]
      rfl
    · obtain ⟨t, ht⟩ := isPrefixOf_exists h
      unfold getCommandType strStartsWith
      rw [ht]
      rfl
  · intro pending data hu hall i payload
    have hfind : pending.find?
        (fun p => getCommandType p.originalCommand == getCommandType data) = none := by
      rw [List.find?_eq_none]
      intro p hp
      rw [hu]
      intro hc
      exact hall p hp (by simpa using hc)
    simp [handleData, hfind]

/-- Claim C8, witness: an nhb frame arriving while only a meter_read
request is pending resolves nothing. -/
theorem C8_amended_witness :
    Action.resolveRequest 1 "nhb(0076,1)" ∉
      (handleData [{ commandId := 1, originalCommand := "meter_read()" }] "nhb(0076,1)").1 :=
  C8_amended.2.2.2.2 [{ commandId := 1, originalCommand := "meter_read()" }] "nhb(0076,1)"
    (by decide) (by decide) 1 "nhb(0076,1)"

end FAS
